import Mathlib

/-!
Shallow embedding of the MediPro e-commerce backend (FastAPI + SQLAlchemy)
service layer, translated from `app/services/*.py`, `app/models/*.py` and
`app/schemas/*.py`.

Modelling conventions:
* The relational store is a `DB` record of row lists; an unordered SQL
  `SELECT` (and an ORM relationship load issued without `ORDER BY`, such as
  `selectinload`) returns rows in table (row-list) order.
* UUID primary keys are modelled as `Nat`; fresh ids come from the `nextId`
  counter (modelling `uuid4` generation).
* `Numeric(10,2)` money columns and Python numeric arithmetic are modelled
  over `Rat`; integer columns over `Int`.
* A service method that commits returns the whole post-commit `DB` at once,
  so a transaction is atomic by construction; a raised `ValueError` is an
  `Except.error`, in which case no commit is issued and the store is
  unchanged (the per-request session is discarded without flushing).
* Timestamps, the generated `order_number` string, addresses and other
  opaque snapshot blobs are I/O-dependent presentation data not used by any
  claim and are omitted from the row records.
-/

/-- Status enumeration from `app/models/order.py` (`OrderStatus`). -/
inductive OrderStatus where
  | pending | confirmed | processing | shipped | delivered | cancelled | refunded
deriving DecidableEq, Repr

/-- Status enumeration from `app/models/order.py` (`PaymentStatus`). -/
inductive PaymentStatus where
  | pending | paid | failed | refunded
deriving DecidableEq, Repr

/-- Row of the `products` table (`app/models/product.py`), restricted to the
columns the services under verification read or write. -/
structure Product where
  id : Nat
  name : String
  price : Rat
  categoryId : Option Nat
  stockQuantity : Int
  sku : Option String
  isActive : Bool
deriving DecidableEq, Repr

/-- Row of the `categories` table (`app/models/category.py`); the
presentation columns (icon, image, color, SEO metadata) are omitted. -/
structure Category where
  id : Nat
  name : String
  slug : String
  parentId : Option Nat
  displayOrder : Int
  isActive : Bool
deriving DecidableEq, Repr

/-- Row of the `cart_items` table (`app/models/cart.py`). -/
structure CartItem where
  id : Nat
  userId : Nat
  productId : Nat
  quantity : Int
deriving DecidableEq, Repr

/-- Row of the `orders` table (`app/models/order.py`), restricted to the
monetary and status columns. -/
structure OrderRec where
  id : Nat
  userId : Nat
  subtotal : Rat
  shippingCost : Rat
  taxAmount : Rat
  discountAmount : Rat
  totalAmount : Rat
  status : OrderStatus
  paymentStatus : PaymentStatus
deriving DecidableEq, Repr

/-- Row of the `order_items` table (`app/models/order.py`); `productId` is
nullable (`ondelete="SET NULL"`), the snapshot columns are kept. -/
structure OrderItemRec where
  orderId : Nat
  productId : Option Nat
  productName : String
  productSku : Option String
  quantity : Int
  priceAtPurchase : Rat
  subtotal : Rat
deriving DecidableEq, Repr

/-- Row of the `reviews` table (`app/models/review.py`), restricted to the
columns `ReviewService.create_review` touches. -/
structure Review where
  id : Nat
  userId : Nat
  productId : Nat
  rating : Nat
  isVerifiedPurchase : Bool
deriving DecidableEq, Repr

/-- The relational store: one list of rows per table, plus a counter
supplying fresh primary keys. -/
structure DB where
  products : List Product
  categories : List Category
  cartItems : List CartItem
  orders : List OrderRec
  orderItems : List OrderItemRec
  reviews : List Review
  nextId : Nat
deriving DecidableEq, Repr

/-- Stock of the product row with the given id, if present
(`select(Product).where(Product.id == pid)` projected to `stock_quantity`). -/
def stockOf (ps : List Product) (pid : Nat) : Option Int :=
  (ps.find? (fun p => p.id == pid)).map (fun p => p.stockQuantity)

/-- Price of the product row with the given id, defaulting to 0 when the row
is absent (used only to state specifications). -/
def priceOf (ps : List Product) (pid : Nat) : Rat :=
  ((ps.find? (fun p => p.id == pid)).map (fun p => p.price)).getD 0

/-- Property `CartItem.subtotal` from `app/models/cart.py`: current product
price times quantity, `0.0` when the product relationship is empty. -/
def cartItemSubtotal (db : DB) (ci : CartItem) : Rat :=
  match db.products.find? (fun p => p.id == ci.productId) with
  | some p => p.price * (ci.quantity : Rat)
  | none => 0

/-- Business-rule errors raised as `ValueError` by the cart service
(`app/services/cart_service.py`); `productRowMissing` models the
`AttributeError` crash of `update_cart_item` when a cart line's product row
is absent (unreachable under the non-null foreign key). -/
inductive CartErr where
  | productNotFound | productUnavailable | insufficientStock | productRowMissing
deriving DecidableEq, Repr

/-- Response shape `CartResponse` built by `CartResponse.from_items`
(`app/schemas/cart.py`). -/
structure CartResponse where
  items : List CartItem
  totalItems : Int
  subtotal : Rat
deriving DecidableEq, Repr

/-- CartService.get_cart: select the user's cart rows and aggregate them via
`CartResponse.from_items` (sum of quantities, sum of line subtotals).
Read-only: it takes the store and returns only a response. -/
def get_cart (db : DB) (userId : Nat) : CartResponse :=
  let items := db.cartItems.filter (fun ci => ci.userId == userId)
  { items := items
    totalItems := (items.map (fun ci => ci.quantity)).sum
    subtotal := (items.map (fun ci => cartItemSubtotal db ci)).sum }

/-- CartService.add_to_cart: validate product existence, activity and stock,
then merge into an existing (user, product) line or insert a new one.
When the merged quantity exceeds stock the `ValueError` is raised after the
in-session `cart_item.quantity += quantity` but before any flush or commit,
so the stored row is unchanged: the error branch carries no new store. -/
def add_to_cart (db : DB) (userId productId : Nat) (quantity : Int) :
    Except CartErr (DB × CartItem) :=
  match db.products.find? (fun p => p.id == productId) with
  | none => .error .productNotFound
  | some product =>
    if !product.isActive then .error .productUnavailable
    else if product.stockQuantity < quantity then .error .insufficientStock
    else
      match db.cartItems.find? (fun ci => ci.userId == userId && ci.productId == productId) with
      | some cartItem =>
        let merged := { cartItem with quantity := cartItem.quantity + quantity }
        if product.stockQuantity < merged.quantity then .error .insufficientStock
        else
          .ok ({ db with cartItems :=
                   db.cartItems.map (fun x => if x.id == cartItem.id then merged else x) },
               merged)
      | none =>
        let fresh : CartItem :=
          { id := db.nextId, userId := userId, productId := productId, quantity := quantity }
        .ok ({ db with cartItems := db.cartItems ++ [fresh], nextId := db.nextId + 1 }, fresh)

/-- CartService.update_cart_item: `Optional[CartItem]` (None when the row is
missing or not owned by the caller) is modelled by the inner `Option`; the
stock re-check reads live stock but never consults `is_active`. -/
def update_cart_item (db : DB) (itemId userId : Nat) (quantity : Int) :
    Except CartErr (Option (DB × CartItem)) :=
  match db.cartItems.find? (fun ci => ci.id == itemId && ci.userId == userId) with
  | none => .ok none
  | some cartItem =>
    match db.products.find? (fun p => p.id == cartItem.productId) with
    | none => .error .productRowMissing
    | some product =>
      if product.stockQuantity < quantity then .error .insufficientStock
      else
        let updated := { cartItem with quantity := quantity }
        .ok (some ({ db with cartItems :=
                       db.cartItems.map (fun x => if x.id == cartItem.id then updated else x) },
                   updated))

/-- Business-rule errors raised as `ValueError` by
`OrderService.create_order` (`app/services/order_service.py`). -/
inductive OrderErr where
  | cartEmpty | productUnavailable | insufficientStock
deriving DecidableEq, Repr

/-- Errors of `OrderService.cancel_order`: `notFound` models the `None`
return (order missing or not owned by the caller, mapped to 404 at the
route), `invalid` the `ValueError` for a non-cancellable status. -/
inductive CancelErr where
  | notFound | invalid
deriving DecidableEq, Repr

/-- One entry of the `order_items` list accumulated by
`OrderService.create_order` before the `Order` row exists. -/
structure OrderItemDraft where
  productId : Nat
  productName : String
  productSku : Option String
  quantity : Int
  priceAtPurchase : Rat
  subtotal : Rat
deriving DecidableEq, Repr

/-- Validation loop of `OrderService.create_order`: walk the cart lines in
order, re-fetch each line's product, fail on a missing or inactive product
or on insufficient stock, and accumulate the running subtotal together with
the order-item snapshots. -/
def collectOrderItems (db : DB) : List CartItem → Except OrderErr (Rat × List OrderItemDraft)
  | [] => .ok (0, [])
  | ci :: rest =>
    match db.products.find? (fun p => p.id == ci.productId) with
    | none => .error .productUnavailable
    | some product =>
      if !product.isActive then .error .productUnavailable
      else if product.stockQuantity < ci.quantity then .error .insufficientStock
      else
        match collectOrderItems db rest with
        | .error e => .error e
        | .ok (sub, items) =>
          .ok (product.price * (ci.quantity : Rat) + sub,
               { productId := product.id
                 productName := product.name
                 productSku := product.sku
                 quantity := ci.quantity
                 priceAtPurchase := product.price
                 subtotal := product.price * (ci.quantity : Rat) } :: items)

/-- One stock mutation `product.stock_quantity := f product.stock_quantity`
applied through the ORM to the product row with primary key `pid` (an
`UPDATE products SET stock_quantity ... WHERE id = pid`); a no-op when no
row matches. -/
def applyStockDelta (ps : List Product) (pid : Nat) (f : Int → Int) : List Product :=
  ps.map (fun p => if p.id == pid then { p with stockQuantity := f p.stockQuantity } else p)

/-- Fold of per-line stock mutations: the stock-decrement loop of
`create_order` uses deltas `(product_id, -quantity)` (there `scalar_one`
cannot fail because each product was just validated present), and the
stock-restore loop of `cancel_order` uses `(product_id, +quantity)` for the
lines whose product row still exists (`scalar_one_or_none` plus the
`if product:` guard skips hard-deleted products, which here is the identity
of `applyStockDelta` on an unmatched id). -/
def applyStockDeltas (ps : List Product) : List (Nat × Int) → List Product
  | [] => ps
  | (pid, d) :: rest => applyStockDeltas (applyStockDelta ps pid (fun s => s + d)) rest

/-- OrderService.create_order: load the caller's cart, validate every line,
compute the totals (free shipping from a subtotal of 5000, otherwise a flat
250; tax and discount fixed at 0), then — in one committed unit of work —
insert the `Order` row and one `OrderItem` snapshot per line, decrement each
product's stock by the ordered quantity, and delete the caller's cart rows. -/
def create_order (db : DB) (userId : Nat) : Except OrderErr (DB × OrderRec) :=
  let cartItems := db.cartItems.filter (fun ci => ci.userId == userId)
  if cartItems.isEmpty then .error .cartEmpty
  else
    match collectOrderItems db cartItems with
    | .error e => .error e
    | .ok (subtotal, drafts) =>
      let shippingCost : Rat := if 5000 ≤ subtotal then 0 else 250
      let totalAmount := subtotal + shippingCost
      let order : OrderRec :=
        { id := db.nextId
          userId := userId
          subtotal := subtotal
          shippingCost := shippingCost
          taxAmount := 0
          discountAmount := 0
          totalAmount := totalAmount
          status := .pending
          paymentStatus := .pending }
      let newItems : List OrderItemRec := drafts.map (fun d =>
        { orderId := order.id
          productId := some d.productId
          productName := d.productName
          productSku := d.productSku
          quantity := d.quantity
          priceAtPurchase := d.priceAtPurchase
          subtotal := d.subtotal })
      let products2 :=
        applyStockDeltas db.products (drafts.map (fun d => (d.productId, -d.quantity)))
      .ok ({ db with
               products := products2
               orders := db.orders ++ [order]
               orderItems := db.orderItems ++ newItems
               cartItems := db.cartItems.filter (fun ci => ci.userId != userId)
               nextId := db.nextId + 1 },
           order)

/-- OrderService.cancel_order: find the order by id and owner, reject a
status outside {pending, confirmed}, otherwise set status to cancelled and
restore stock on every line whose product row still exists, committing all
of it at once. An error commits nothing, so the store is unchanged. -/
def cancel_order (db : DB) (orderId userId : Nat) : Except CancelErr (DB × OrderRec) :=
  match db.orders.find? (fun o => o.id == orderId && o.userId == userId) with
  | none => .error .notFound
  | some order =>
    if order.status != .pending && order.status != .confirmed then .error .invalid
    else
      let cancelled := { order with status := OrderStatus.cancelled }
      let items := db.orderItems.filter (fun oi => oi.orderId == order.id)
      let products2 :=
        applyStockDeltas db.products
          (items.filterMap (fun oi => oi.productId.map (fun pid => (pid, oi.quantity))))
      .ok ({ db with
               products := products2
               orders := db.orders.map (fun x => if x.id == order.id then cancelled else x) },
           cancelled)

/-- Sort key of the category listing queries:
`order_by(Category.display_order.asc(), Category.name.asc())`. -/
def catLe (a b : Category) : Bool :=
  a.displayOrder < b.displayOrder ∨ (a.displayOrder = b.displayOrder ∧ a.name ≤ b.name)

/-- Rows of the `Category.subcategories` ORM relationship (the backref of
`parent`): all child rows of `c`, in table order — `selectinload` issues the
child query without an `ORDER BY`. -/
def childRows (cats : List Category) (c : Category) : List Category :=
  cats.filter (fun s => s.parentId == some c.id)

/-- Node shape `CategoryTree` from `app/schemas/category.py` (presentation
fields icon/image/color omitted). -/
inductive CategoryTree where
  | mk (id : Nat) (name slug : String) (productCount : Nat) (subcategories : List CategoryTree)

/-- Id of a tree node. -/
def CategoryTree.topId : CategoryTree → Nat
  | .mk i _ _ _ _ => i

/-- Children of a tree node. -/
def CategoryTree.subs : CategoryTree → List CategoryTree
  | .mk _ _ _ _ s => s

/-- Property `Category.product_count`: number of product rows referencing
this category. -/
def product_count (db : DB) (c : Category) : Nat :=
  (db.products.filter (fun p => p.categoryId == some c.id)).length

/-- CategoryService._build_category_tree_node: one node for `c`, its
children built from `c.subcategories` (table order), keeping a child only
when its id is a key of `category_map` (the active categories) and it is
active, and recursing through `category_map[subcat.id]`. Recursion is fuelled;
any fuel at least the number of categories is enough on acyclic data (the
Python code diverges on a parent cycle, the model returns a leaf). -/
def build_category_tree_node (db : DB) (activeCats : List Category) :
    Nat → Category → CategoryTree
  | 0, c => .mk c.id c.name c.slug (product_count db c) []
  | fuel + 1, c =>
    .mk c.id c.name c.slug (product_count db c)
      ((childRows db.categories c).filterMap (fun s =>
        match activeCats.find? (fun a => a.id == s.id) with
        | some s2 =>
          if s.isActive then some (build_category_tree_node db activeCats fuel s2) else none
        | none => none))

/-- CategoryService.get_category_tree: select the active categories ordered
by (display_order asc, name asc), then build one tree per root (null
parent) in that order. -/
def get_category_tree (db : DB) : List CategoryTree :=
  let allCategories := (db.categories.filter (fun c => c.isActive)).mergeSort catLe
  (allCategories.filter (fun c => c.parentId == none)).map
    (build_category_tree_node db allCategories db.categories.length)

/-- Modelled from the spec (for comparison only, not from the code): the
tree builder as the specification describes it, with the children of every
node re-sorted ascending by (display_order, name). -/
def build_category_tree_node_spec (db : DB) (activeCats : List Category) :
    Nat → Category → CategoryTree
  | 0, c => .mk c.id c.name c.slug (product_count db c) []
  | fuel + 1, c =>
    .mk c.id c.name c.slug (product_count db c)
      (((childRows db.categories c).mergeSort catLe).filterMap (fun s =>
        match activeCats.find? (fun a => a.id == s.id) with
        | some s2 =>
          if s.isActive then some (build_category_tree_node_spec db activeCats fuel s2) else none
        | none => none))

/-- Modelled from the spec: `get_category_tree` with children sorted at
every level, as the specification's traversal-order sentence claims. -/
def get_category_tree_spec (db : DB) : List CategoryTree :=
  let allCategories := (db.categories.filter (fun c => c.isActive)).mergeSort catLe
  (allCategories.filter (fun c => c.parentId == none)).map
    (build_category_tree_node_spec db allCategories db.categories.length)

/-- Business-rule errors raised as `ValueError` by
`CategoryService.delete_category` when `force` is false. -/
inductive CategoryErr where
  | hasProducts | hasSubcategories
deriving DecidableEq, Repr

/-- CategoryService.delete_category: `False` when the id is unknown; without
`force`, reject when the category has products or child categories.
Otherwise `self.db.delete(category)` is committed, with the ORM cascades of
`app/models/category.py` and `app/models/product.py`:
* `Category.products` has `cascade="all, delete-orphan"`, so the associated
  product rows are deleted (together with their own cascades: their cart
  rows and reviews are deleted, and their order lines get a null product id
  from the `ondelete="SET NULL"` foreign key);
* the `subcategories` backref has no delete cascade, so the loaded child
  rows have their `parent_id` nulled out (promoted to root) before the
  parent row is removed. -/
def delete_category (db : DB) (categoryId : Nat) (force : Bool) :
    Except CategoryErr (DB × Bool) :=
  match db.categories.find? (fun c => c.id == categoryId) with
  | none => .ok (db, false)
  | some category =>
    if !force && (db.products.filter (fun p => p.categoryId == some category.id)).length > 0 then
      .error .hasProducts
    else if !force && (db.categories.filter (fun c => c.parentId == some category.id)).length > 0 then
      .error .hasSubcategories
    else
      let deadPids := (db.products.filter (fun p => p.categoryId == some category.id)).map
        (fun p => p.id)
      .ok ({ db with
               categories := (db.categories.filter (fun c => c.id != category.id)).map
                 (fun c => if c.parentId == some category.id then { c with parentId := none } else c)
               products := db.products.filter (fun p => p.categoryId != some category.id)
               cartItems := db.cartItems.filter (fun ci => !(deadPids.contains ci.productId))
               reviews := db.reviews.filter (fun r => !(deadPids.contains r.productId))
               orderItems := db.orderItems.map (fun oi =>
                 if (oi.productId.map deadPids.contains).getD false
                 then { oi with productId := none } else oi) },
           true)

/-- Shared response shape of every paginated listing
(`items, total, page, page_size, total_pages`). -/
structure PageResponse (α : Type) where
  items : List α
  total : Nat
  page : Nat
  pageSize : Nat
  totalPages : Nat
deriving DecidableEq, Repr

/-- Offset pagination shared by every listing:
`offset = (page - 1) * page_size` then `limit page_size`. -/
def paginate (rows : List α) (page pageSize : Nat) : List α :=
  (rows.drop ((page - 1) * pageSize)).take pageSize

/-- Python `math.ceil(total / page_size)` on naturals (`page_size > 0`). -/
def ceilPages (total pageSize : Nat) : Nat :=
  (total + pageSize - 1) / pageSize

/-- ProductService.get_products, restricted to its count/offset/limit
arithmetic: `rows` is the already filtered and sorted result set; empty
fallback `else 0`. -/
def get_products (rows : List α) (page pageSize : Nat) : PageResponse α :=
  { items := paginate rows page pageSize
    total := rows.length
    page := page
    pageSize := pageSize
    totalPages := if rows.length > 0 then ceilPages rows.length pageSize else 0 }

/-- CategoryService.get_categories pagination arithmetic; empty fallback
`else 0`. -/
def get_categories (rows : List α) (page pageSize : Nat) : PageResponse α :=
  { items := paginate rows page pageSize
    total := rows.length
    page := page
    pageSize := pageSize
    totalPages := if rows.length > 0 then ceilPages rows.length pageSize else 0 }

/-- ReviewService.get_product_reviews pagination arithmetic; empty fallback
`else 0` (`total_pages = math.ceil(total / page_size) if total > 0 else 0`
at `app/services/review_service.py` lines 100 and 184). -/
def get_product_reviews (rows : List α) (page pageSize : Nat) : PageResponse α :=
  { items := paginate rows page pageSize
    total := rows.length
    page := page
    pageSize := pageSize
    totalPages := if rows.length > 0 then ceilPages rows.length pageSize else 0 }

/-- OrderService.get_user_orders pagination arithmetic; empty fallback
`else 1`. -/
def get_user_orders (rows : List α) (page pageSize : Nat) : PageResponse α :=
  { items := paginate rows page pageSize
    total := rows.length
    page := page
    pageSize := pageSize
    totalPages := if rows.length > 0 then ceilPages rows.length pageSize else 1 }

/-- AdminService.get_users pagination arithmetic; empty fallback `else 1`. -/
def get_users (rows : List α) (page pageSize : Nat) : PageResponse α :=
  { items := paginate rows page pageSize
    total := rows.length
    page := page
    pageSize := pageSize
    totalPages := if rows.length > 0 then ceilPages rows.length pageSize else 1 }

/-- SQLAlchemy `Result.scalar_one_or_none()`: none of zero rows, the row of
exactly one, and a `MultipleResultsFound` error on two or more. -/
def scalarOneOrNone : List α → Except String (Option α)
  | [] => .ok none
  | [a] => .ok (some a)
  | _ :: _ :: _ => .error "MultipleResultsFound"

/-- Errors of `ReviewService.create_review`: `alreadyReviewed` is the
business-rule `ValueError`; `multipleResults` is the unexpected
`MultipleResultsFound` escaping from `scalar_one_or_none`. -/
inductive ReviewErr where
  | alreadyReviewed | multipleResults
deriving DecidableEq, Repr

/-- ReviewService.create_review: reject a duplicate (user, product) review,
then decide `is_verified_purchase` by looking up the caller's order lines
for the product with `scalar_one_or_none` — a lookup that tolerates at most
one historical line — and insert the review. -/
def create_review (db : DB) (userId productId rating : Nat) :
    Except ReviewErr (DB × Review) :=
  match scalarOneOrNone (db.reviews.filter (fun r =>
      r.userId == userId && r.productId == productId)) with
  | .error _ => .error .multipleResults
  | .ok (some _) => .error .alreadyReviewed
  | .ok none =>
    match scalarOneOrNone (db.orderItems.filter (fun oi =>
        oi.productId == some productId &&
        db.orders.any (fun o => o.id == oi.orderId && o.userId == userId))) with
    | .error _ => .error .multipleResults
    | .ok verified =>
      let review : Review :=
        { id := db.nextId
          userId := userId
          productId := productId
          rating := rating
          isVerifiedPurchase := verified.isSome }
      .ok ({ db with reviews := db.reviews ++ [review], nextId := db.nextId + 1 }, review)

/-- Validity of one cart line for order placement, as `create_order` checks
it: the referenced product row exists, is active, and has stock at least the
line quantity. -/
def cartLineOk (db : DB) (ci : CartItem) : Bool :=
  match db.products.find? (fun p => p.id == ci.productId) with
  | some p => p.isActive && decide (ci.quantity ≤ p.stockQuantity)
  | none => false

/-- Ids of the children of the first returned tree node (a projection used
to compare tree shapes). -/
def rootChildIds (ts : List CategoryTree) : List Nat :=
  match ts with
  | [] => []
  | t :: _ => t.subs.map CategoryTree.topId

/-- Fixture: two active products (3000 and 2500) and a two-line cart for
user 1 — the worked example of the specification. -/
def orderFixtureDb : DB :=
  { products :=
      [ { id := 1, name := "A", price := 3000, categoryId := none, stockQuantity := 5,
          sku := none, isActive := true },
        { id := 2, name := "B", price := 2500, categoryId := none, stockQuantity := 4,
          sku := none, isActive := true } ]
    categories := []
    cartItems :=
      [ { id := 11, userId := 1, productId := 1, quantity := 1 },
        { id := 12, userId := 1, productId := 2, quantity := 1 } ]
    orders := []
    orderItems := []
    reviews := []
    nextId := 100 }

/-- Fixture: a pending order (id 7, user 1) with one two-unit line on a
product whose current stock is 3. -/
def cancelFixtureDb : DB :=
  { products :=
      [ { id := 1, name := "A", price := 3000, categoryId := none, stockQuantity := 3,
          sku := none, isActive := true } ]
    categories := []
    cartItems := []
    orders :=
      [ { id := 7, userId := 1, subtotal := 6000, shippingCost := 0, taxAmount := 0,
          discountAmount := 0, totalAmount := 6000, status := .pending,
          paymentStatus := .pending } ]
    orderItems :=
      [ { orderId := 7, productId := some 1, productName := "A", productSku := none,
          quantity := 2, priceAtPurchase := 3000, subtotal := 6000 } ]
    reviews := []
    nextId := 200 }

/-- Fixture: an active product with stock 5 and an existing cart line of
quantity 4 for user 1. -/
def cartFixtureDb : DB :=
  { products :=
      [ { id := 10, name := "C", price := 100, categoryId := none, stockQuantity := 5,
          sku := none, isActive := true } ]
    categories := []
    cartItems := [ { id := 20, userId := 1, productId := 10, quantity := 4 } ]
    orders := []
    orderItems := []
    reviews := []
    nextId := 300 }

/-- Fixture: an inactive product with stock 5 and a cart line for it owned
by user 1. -/
def inactiveCartFixtureDb : DB :=
  { products :=
      [ { id := 10, name := "C", price := 100, categoryId := none, stockQuantity := 5,
          sku := none, isActive := false } ]
    categories := []
    cartItems := [ { id := 20, userId := 1, productId := 10, quantity := 1 } ]
    orders := []
    orderItems := []
    reviews := []
    nextId := 400 }

/-- Fixture: user 1 bought product 10 in two separate orders and has not
reviewed it. -/
def reviewFixtureDb : DB :=
  { products := []
    categories := []
    cartItems := []
    orders :=
      [ { id := 100, userId := 1, subtotal := 100, shippingCost := 250, taxAmount := 0,
          discountAmount := 0, totalAmount := 350, status := .delivered,
          paymentStatus := .paid },
        { id := 101, userId := 1, subtotal := 100, shippingCost := 250, taxAmount := 0,
          discountAmount := 0, totalAmount := 350, status := .delivered,
          paymentStatus := .paid } ]
    orderItems :=
      [ { orderId := 100, productId := some 10, productName := "C", productSku := none,
          quantity := 1, priceAtPurchase := 100, subtotal := 100 },
        { orderId := 101, productId := some 10, productName := "C", productSku := none,
          quantity := 1, priceAtPurchase := 100, subtotal := 100 } ]
    reviews := []
    nextId := 500 }

/-- Fixture: one active root with two active children stored in table order
[display_order 2, display_order 1], so the relationship order and the
(display_order, name) order disagree. -/
def treeFixtureDb : DB :=
  { products := []
    categories :=
      [ { id := 1, name := "root", slug := "root", parentId := none, displayOrder := 0,
          isActive := true },
        { id := 2, name := "aaa", slug := "aaa", parentId := some 1, displayOrder := 2,
          isActive := true },
        { id := 3, name := "bbb", slug := "bbb", parentId := some 1, displayOrder := 1,
          isActive := true } ]
    cartItems := []
    orders := []
    orderItems := []
    reviews := []
    nextId := 600 }

/-- Fixture: an active root whose only child is inactive. -/
def prunedTreeFixtureDb : DB :=
  { products := []
    categories :=
      [ { id := 1, name := "root", slug := "root", parentId := none, displayOrder := 0,
          isActive := true },
        { id := 2, name := "child", slug := "child", parentId := some 1, displayOrder := 1,
          isActive := false } ]
    cartItems := []
    orders := []
    orderItems := []
    reviews := []
    nextId := 700 }

/-- The root row of prunedTreeFixtureDb. -/
def prunedRootCat : Category :=
  { id := 1, name := "root", slug := "root", parentId := none, displayOrder := 0,
    isActive := true }

/-- Fixture: one category with one attached product. -/
def categoryFixtureDb : DB :=
  { products :=
      [ { id := 10, name := "P", price := 100, categoryId := some 1, stockQuantity := 5,
          sku := none, isActive := true } ]
    categories :=
      [ { id := 1, name := "cat", slug := "cat", parentId := none, displayOrder := 0,
          isActive := true } ]
    cartItems := []
    orders := []
    orderItems := []
    reviews := []
    nextId := 800 }

/-- C8: getCart has no side effects and always succeeds: it returns the
user's cart lines, total_items equal to the sum of their quantities,
subtotal equal to the sum of quantity times current product price (under
foreign-key integrity of the cart lines), and all zeros for a user with no
cart lines. Purity is by the type: `get_cart` consumes the store and
returns only a response. -/
theorem get_cart_spec (db : DB) (userId : Nat) :
    (get_cart db userId).items = db.cartItems.filter (fun ci => ci.userId == userId) ∧
    (get_cart db userId).totalItems =
      ((db.cartItems.filter (fun ci => ci.userId == userId)).map (fun ci => ci.quantity)).sum ∧
    ((∀ ci ∈ db.cartItems.filter (fun ci => ci.userId == userId),
        (db.products.find? (fun p => p.id == ci.productId)).isSome) →
      (get_cart db userId).subtotal =
        ((db.cartItems.filter (fun ci => ci.userId == userId)).map
          (fun ci => priceOf db.products ci.productId * (ci.quantity : Rat))).sum) ∧
    (db.cartItems.filter (fun ci => ci.userId == userId) = [] →
      get_cart db userId = { items := [], totalItems := 0, subtotal := 0 }) := by
  refine ⟨rfl, rfl, ?_, ?_⟩
  · intro h
    show ((db.cartItems.filter (fun ci => ci.userId == userId)).map
        (fun ci => cartItemSubtotal db ci)).sum = _
    congr 1
    apply List.map_congr_left
    intro ci hci
    have hs := h ci hci
    cases hfind : db.products.find? (fun p => p.id == ci.productId) with
    | none => rw [hfind] at hs; simp at hs
    | some p => simp [cartItemSubtotal, priceOf, hfind]
  · intro h
    simp only [get_cart, h]
    rfl

/-- Witness for C8 on the two-line fixture cart. -/
theorem get_cart_spec_witness :
    (get_cart orderFixtureDb 1).subtotal =
      ((orderFixtureDb.cartItems.filter (fun ci => ci.userId == 1)).map
        (fun ci => priceOf orderFixtureDb.products ci.productId * (ci.quantity : Rat))).sum :=
  (get_cart_spec orderFixtureDb 1).2.2.1 (by decide)

/-- C10: update_cart_item never consults the product's active flag — on a
cart line whose product is inactive but has enough stock, the update
succeeds and overwrites the quantity, while add_to_cart rejects that same
product as not available for every caller and quantity. -/
theorem update_cart_item_inactive (db : DB) (itemId userId : Nat) (quantity : Int)
    (ci : CartItem) (p : Product)
    (hci : db.cartItems.find? (fun x => x.id == itemId && x.userId == userId) = some ci)
    (hp : db.products.find? (fun x => x.id == ci.productId) = some p)
    (hinactive : p.isActive = false)
    (hstock : quantity ≤ p.stockQuantity) :
    update_cart_item db itemId userId quantity =
      .ok (some ({ db with cartItems :=
            db.cartItems.map (fun x => if x.id == ci.id then { ci with quantity := quantity } else x) },
          { ci with quantity := quantity })) ∧
    ∀ uid : Nat, ∀ q : Int, add_to_cart db uid ci.productId q = .error .productUnavailable := by
  constructor
  · simp only [update_cart_item, hci, hp]
    rw [if_neg (not_lt.mpr hstock)]
  · intro uid q
    simp [add_to_cart, hp, hinactive]

/-- Witness for C10: updating the line on the inactive product succeeds
while adding that product to a cart is rejected. -/
theorem update_cart_item_inactive_witness :
    add_to_cart inactiveCartFixtureDb 1 10 1 = .error .productUnavailable :=
  (update_cart_item_inactive inactiveCartFixtureDb 20 1 3
      { id := 20, userId := 1, productId := 10, quantity := 1 }
      { id := 10, name := "C", price := 100, categoryId := none, stockQuantity := 5,
        sku := none, isActive := false }
      (by decide) (by decide) (by decide) (by decide)).2 1 1

/-- scalar_one_or_none raises MultipleResultsFound on two or more rows. -/
theorem scalarOneOrNone_of_two {α : Type} (l : List α) (h : 2 ≤ l.length) :
    scalarOneOrNone l = .error "MultipleResultsFound" := by
  match l with
  | [] => simp at h
  | [_] => simp at h
  | _ :: _ :: _ => rfl

/-- C9: a user with two or more historical order lines for a product and no
existing review of it gets no review out of create_review and no clean
business-rule error: the verified-purchase lookup tolerates at most one row
and the call fails with the unexpected multiple-results error. -/
theorem create_review_two_purchases (db : DB) (userId productId rating : Nat)
    (hnone : db.reviews.filter (fun r => r.userId == userId && r.productId == productId) = [])
    (htwo : 2 ≤ (db.orderItems.filter (fun oi =>
        oi.productId == some productId &&
        db.orders.any (fun o => o.id == oi.orderId && o.userId == userId))).length) :
    create_review db userId productId rating = .error .multipleResults := by
  unfold create_review
  rw [hnone, scalarOneOrNone_of_two _ htwo]
  rfl

/-- Witness for C9 on the fixture where user 1 bought product 10 twice. -/
theorem create_review_two_purchases_witness :
    create_review reviewFixtureDb 1 10 5 = .error .multipleResults :=
  create_review_two_purchases reviewFixtureDb 1 10 5 (by decide) (by decide)

/-- C5: adding to an existing cart line of quantity q fails with
InsufficientStock exactly when q + quantity exceeds the product's stock
(and the failed call commits nothing, so the stored quantity stays q);
otherwise the line's stored quantity becomes the sum q + quantity. -/
theorem add_to_cart_merge (db : DB) (userId productId : Nat) (quantity : Int)
    (p : Product) (ci : CartItem)
    (hp : db.products.find? (fun x => x.id == productId) = some p)
    (hact : p.isActive = true)
    (hci : db.cartItems.find? (fun x => x.userId == userId && x.productId == productId) = some ci)
    (hq : 0 ≤ ci.quantity) :
    (p.stockQuantity < ci.quantity + quantity →
      add_to_cart db userId productId quantity = .error .insufficientStock) ∧
    (ci.quantity + quantity ≤ p.stockQuantity →
      add_to_cart db userId productId quantity =
        .ok ({ db with cartItems :=
              db.cartItems.map (fun x => if x.id == ci.id then { ci with quantity := ci.quantity + quantity } else x) },
            { ci with quantity := ci.quantity + quantity })) := by
  constructor
  · intro hover
    simp only [add_to_cart, hp, hact, Bool.not_true, Bool.false_eq_true, if_false]
    by_cases hlt : p.stockQuantity < quantity
    · rw [if_pos hlt]
    · rw [if_neg hlt, hci]
      simp only []
      rw [if_pos hover]
  · intro hle
    have hq1 : ¬ p.stockQuantity < quantity := by
      intro hlt
      have : ci.quantity + quantity ≤ p.stockQuantity := hle
      omega
    simp only [add_to_cart, hp, hact, Bool.not_true, Bool.false_eq_true, if_false]
    rw [if_neg hq1, hci]
    simp only []
    rw [if_neg (not_lt.mpr hle)]

/-- Witness for C5: stock 5, existing quantity 4, adding 2 more fails. -/
theorem add_to_cart_merge_witness :
    add_to_cart cartFixtureDb 1 10 2 = .error .insufficientStock :=
  (add_to_cart_merge cartFixtureDb 1 10 2
      { id := 10, name := "C", price := 100, categoryId := none, stockQuantity := 5,
        sku := none, isActive := true }
      { id := 20, userId := 1, productId := 10, quantity := 4 }
      (by decide) (by decide) (by decide) (by decide)).1 (by decide)

/-- The integer pagination formula (total + pageSize - 1) / pageSize is the
mathematical ceiling of total / pageSize. -/
theorem ceilPages_eq_ceil (total pageSize : Nat) (hps : 0 < pageSize) :
    ceilPages total pageSize = ⌈(total : ℚ) / (pageSize : ℚ)⌉₊ := by
  rcases Nat.eq_zero_or_pos total with h0 | hpos
  · subst h0
    simp [ceilPages, Nat.div_eq_of_lt (show pageSize - 1 < pageSize by omega)]
  · have hmod := Nat.div_add_mod (total + pageSize - 1) pageSize
    have hltm := Nat.mod_lt (total + pageSize - 1) hps
    set n := (total + pageSize - 1) / pageSize with hn
    have hne : n ≠ 0 := by
      have h1 : 1 ≤ (total + pageSize - 1) / pageSize :=
        (Nat.le_div_iff_mul_le hps).mpr (by omega)
      omega
    have hcomm : n * pageSize = pageSize * n := Nat.mul_comm n pageSize
    have hts : total ≤ n * pageSize := by omega
    have hlow : (n - 1) * pageSize < total := by
      have hsub : (n - 1) * pageSize = n * pageSize - 1 * pageSize := Nat.sub_mul n 1 pageSize
      rw [one_mul] at hsub
      omega
    have hpsq : (0 : ℚ) < (pageSize : ℚ) := by exact_mod_cast hps
    rw [show ceilPages total pageSize = n from rfl, eq_comm, Nat.ceil_eq_iff hne]
    constructor
    · rw [lt_div_iff₀ hpsq]
      exact_mod_cast hlow
    · rw [div_le_iff₀ hpsq]
      exact_mod_cast hts

/-- C7 counterexample: a reviews listing over zero rows reports
total_pages = 0, not the 1 the claim asserts for reviews. -/
theorem get_product_reviews_empty_not_one :
    (get_product_reviews ([] : List Nat) 1 10).totalPages ≠ 1 := by decide

/-- C7 (amended): every listing pages with offset (page-1)*pageSize and at
most pageSize items; total_pages is the ceiling of total / pageSize when
total > 0; when total = 0 the orders and users listings fall back to 1
while the products, categories and reviews listings fall back to 0; and 25
rows with pageSize 10 give total_pages 3 with exactly 5 items on page 3. -/
theorem listings_pagination_spec {α : Type} (rows : List α) (page pageSize : Nat)
    (hpage : 1 ≤ page) (hps : 0 < pageSize) :
    (get_products rows page pageSize).items =
      (rows.drop ((page - 1) * pageSize)).take pageSize ∧
    (get_products rows page pageSize).items.length ≤ pageSize ∧
    ((get_categories rows page pageSize).items = (get_products rows page pageSize).items ∧
      (get_product_reviews rows page pageSize).items = (get_products rows page pageSize).items ∧
      (get_user_orders rows page pageSize).items = (get_products rows page pageSize).items ∧
      (get_users rows page pageSize).items = (get_products rows page pageSize).items) ∧
    (0 < rows.length →
      ((get_products rows page pageSize).totalPages =
          ⌈(rows.length : ℚ) / (pageSize : ℚ)⌉₊ ∧
        (get_categories rows page pageSize).totalPages =
          (get_products rows page pageSize).totalPages ∧
        (get_product_reviews rows page pageSize).totalPages =
          (get_products rows page pageSize).totalPages ∧
        (get_user_orders rows page pageSize).totalPages =
          (get_products rows page pageSize).totalPages ∧
        (get_users rows page pageSize).totalPages =
          (get_products rows page pageSize).totalPages)) ∧
    (rows.length = 0 →
      ((get_products rows page pageSize).totalPages = 0 ∧
        (get_categories rows page pageSize).totalPages = 0 ∧
        (get_product_reviews rows page pageSize).totalPages = 0 ∧
        (get_user_orders rows page pageSize).totalPages = 1 ∧
        (get_users rows page pageSize).totalPages = 1)) ∧
    ((get_products (List.range 25) 3 10).totalPages = 3 ∧
      (get_products (List.range 25) 3 10).items.length = 5) := by
  refine ⟨rfl, ?_, ⟨rfl, rfl, rfl, rfl⟩, ?_, ?_, by decide, by decide⟩
  · show ((rows.drop ((page - 1) * pageSize)).take pageSize).length ≤ pageSize
    rw [List.length_take]
    exact min_le_left _ _
  · intro hpos
    have h := ceilPages_eq_ceil rows.length pageSize hps
    simp only [get_products, get_categories, get_product_reviews, get_user_orders, get_users,
      if_pos hpos]
    exact ⟨h, by trivial, by trivial, by trivial, by trivial⟩
  · intro hzero
    simp [get_products, get_categories, get_product_reviews, get_user_orders, get_users, hzero]

/-- Witness for C7 at 25 rows, page 3, page size 10. -/
theorem listings_pagination_spec_witness :
    (get_products (List.range 25) 3 10).items =
      ((List.range 25).drop ((3 - 1) * 10)).take 10 :=
  (listings_pagination_spec (List.range 25) 3 10 (by decide) (by decide)).1

/-- C2: evaluation of the force-delete at a category with one attached
product. The `cascade="all, delete-orphan"` on `Category.products` makes
`db.delete(category)` delete the product row itself, so the post-state has
no product rows at all — the attached product is not retained with a
cleared category reference, contradicting the service's own force=True
message ("products will be uncategorized") and the column's
`ondelete="SET NULL"`. -/
theorem delete_category_force_removes_product_rows :
    delete_category categoryFixtureDb 1 true =
      .ok ({ categoryFixtureDb with categories := [], products := [] }, true) ∧
    categoryFixtureDb.products.map (fun p => p.id) = [10] := by
  exact ⟨rfl, rfl⟩

/-- find? by id commutes with mapping an id-preserving row transformation. -/
theorem find?_map_of_id_eq (g : Product → Product) (hg : ∀ p, (g p).id = p.id)
    (ps : List Product) (q : Nat) :
    (ps.map g).find? (fun p => p.id == q) = (ps.find? (fun p => p.id == q)).map g := by
  induction ps with
  | nil => rfl
  | cons a t ih =>
    simp only [List.map_cons, List.find?, hg a]
    cases hid : (a.id == q) with
    | true => rfl
    | false => exact ih

/-- A stock update on product pid leaves lookups of every other id
unchanged. -/
theorem stockOf_applyStockDelta_ne (ps : List Product) (pid q : Nat) (f : Int → Int)
    (hne : q ≠ pid) :
    stockOf (applyStockDelta ps pid f) q = stockOf ps q := by
  have hg : ∀ p : Product,
      ((if p.id == pid then { p with stockQuantity := f p.stockQuantity } else p) : Product).id
        = p.id := by
    intro p; split <;> rfl
  unfold stockOf applyStockDelta
  rw [find?_map_of_id_eq _ hg]
  cases hfind : ps.find? (fun p => p.id == q) with
  | none => rfl
  | some p =>
    have hp := List.find?_some hfind
    have hpq : p.id = q := beq_iff_eq.mp hp
    simp [hpq, hne]

/-- A stock update on product pid maps its looked-up stock through f. -/
theorem stockOf_applyStockDelta_eq (ps : List Product) (pid : Nat) (f : Int → Int) :
    stockOf (applyStockDelta ps pid f) pid = (stockOf ps pid).map f := by
  have hg : ∀ p : Product,
      ((if p.id == pid then { p with stockQuantity := f p.stockQuantity } else p) : Product).id
        = p.id := by
    intro p; split <;> rfl
  unfold stockOf applyStockDelta
  rw [find?_map_of_id_eq _ hg]
  cases hfind : ps.find? (fun p => p.id == pid) with
  | none => rfl
  | some p =>
    have hp := List.find?_some hfind
    have hpq : p.id = pid := beq_iff_eq.mp hp
    simp [hpq]

/-- A fold of stock deltas leaves an id untouched by every delta
unchanged. -/
theorem stockOf_applyStockDeltas_notmem (ds : List (Nat × Int)) (ps : List Product) (q : Nat)
    (h : ∀ d ∈ ds, d.1 ≠ q) :
    stockOf (applyStockDeltas ps ds) q = stockOf ps q := by
  induction ds generalizing ps with
  | nil => rfl
  | cons d t ih =>
    simp only [applyStockDeltas]
    rw [ih _ (fun x hx => h x (List.mem_cons_of_mem _ hx))]
    exact stockOf_applyStockDelta_ne ps d.1 q (fun s => s + d.2)
      (fun hqq => h d (List.mem_cons_self _ _) hqq.symm)

/-- With pairwise-distinct delta ids, a fold of stock deltas adds exactly
the listed delta to the listed product's stock. -/
theorem stockOf_applyStockDeltas_mem (ds : List (Nat × Int)) (ps : List Product)
    (q : Nat) (d : Int) (hmem : (q, d) ∈ ds) (hnd : (ds.map Prod.fst).Nodup) :
    stockOf (applyStockDeltas ps ds) q = (stockOf ps q).map (fun s => s + d) := by
  induction ds generalizing ps with
  | nil => cases hmem
  | cons hd t ih =>
    simp only [List.map_cons, List.nodup_cons] at hnd
    rcases List.mem_cons.mp hmem with heq | htail
    · have hfst : hd.1 = q := by rw [← heq]
      have hsnd : hd.2 = d := by rw [← heq]
      simp only [applyStockDeltas]
      rw [stockOf_applyStockDeltas_notmem t _ q (fun x hx hx1 => hnd.1 (by
        have h2 := List.mem_map_of_mem Prod.fst hx
        rw [hfst, ← hx1]
        exact h2))]
      rw [hfst, hsnd]
      exact stockOf_applyStockDelta_eq ps q (fun s => s + d)
    · have hne : q ≠ hd.1 := fun hqq => hnd.1 (by
        have h2 := List.mem_map_of_mem Prod.fst htail
        exact hqq ▸ h2)
      simp only [applyStockDeltas]
      rw [ih _ htail hnd.2]
      rw [stockOf_applyStockDelta_ne ps hd.1 q (fun s => s + hd.2) hne]

/-- When every cart line is valid, the validation loop succeeds with the sum
of line subtotals and one draft per line carrying the line's product id and
quantity. -/
theorem collectOrderItems_ok (db : DB) (l : List CartItem)
    (h : ∀ ci ∈ l, cartLineOk db ci = true) :
    ∃ drafts, collectOrderItems db l = .ok ((l.map (cartItemSubtotal db)).sum, drafts) ∧
      drafts.map (fun d => (d.productId, d.quantity)) =
        l.map (fun ci => (ci.productId, ci.quantity)) := by
  induction l with
  | nil => exact ⟨[], rfl, rfl⟩
  | cons ci t ih =>
    have hci := h ci (List.mem_cons_self _ _)
    obtain ⟨drafts, hok, hmap⟩ := ih (fun x hx => h x (List.mem_cons_of_mem _ hx))
    unfold cartLineOk at hci
    cases hfind : db.products.find? (fun p => p.id == ci.productId) with
    | none => rw [hfind] at hci; simp at hci
    | some p =>
      rw [hfind] at hci
      simp only [Bool.and_eq_true, decide_eq_true_eq] at hci
      have hact : p.isActive = true := hci.1
      have hle : ci.quantity ≤ p.stockQuantity := hci.2
      have hpeq := List.find?_some hfind
      have hpid : p.id = ci.productId := by
        simpa using hpeq
      refine ⟨{ productId := p.id, productName := p.name, productSku := p.sku, quantity := ci.quantity, priceAtPurchase := p.price, subtotal := p.price * (ci.quantity : Rat) } :: drafts, ?_, ?_⟩
      · unfold collectOrderItems
        rw [hfind, hok]
        simp [hact, not_lt.mpr hle, cartItemSubtotal, hfind]
      · simp [hmap, hpid]

/-- C1: for a user with a non-empty cart whose every line references an
active product with sufficient stock — the cart lines having pairwise
distinct products, as the (user_id, product_id) unique constraint
guarantees — create_order succeeds, and the single committed post-state has
zero cart rows for the user, each ordered product's stock decreased by
exactly the ordered quantity, the order row appended and one order-item row
appended per cart line (all in the one returned store: one unit of work). -/
theorem create_order_clears_cart_and_decrements_stock (db : DB) (userId : Nat)
    (hne : db.cartItems.filter (fun ci => ci.userId == userId) ≠ [])
    (hok : ∀ ci ∈ db.cartItems.filter (fun ci => ci.userId == userId), cartLineOk db ci = true)
    (hnd : ((db.cartItems.filter (fun ci => ci.userId == userId)).map
        (fun ci => ci.productId)).Nodup) :
    ∃ db2 order, create_order db userId = .ok (db2, order) ∧
      db2.cartItems.filter (fun ci => ci.userId == userId) = [] ∧
      (∀ ci ∈ db.cartItems.filter (fun ci => ci.userId == userId),
        stockOf db2.products ci.productId =
          (stockOf db.products ci.productId).map (fun s => s - ci.quantity)) ∧
      db2.orders = db.orders ++ [order] ∧
      (∃ newItems, db2.orderItems = db.orderItems ++ newItems ∧
        newItems.length = (db.cartItems.filter (fun ci => ci.userId == userId)).length) := by
  obtain ⟨drafts, hcoll, hmap⟩ := collectOrderItems_ok db _ hok
  have hempty : (db.cartItems.filter (fun ci => ci.userId == userId)).isEmpty = false := by
    cases hc : db.cartItems.filter (fun ci => ci.userId == userId) with
    | nil => exact absurd hc hne
    | cons a t => rfl
  have hds : drafts.map (fun d => (d.productId, -d.quantity)) =
      (db.cartItems.filter (fun ci => ci.userId == userId)).map
        (fun ci => (ci.productId, -ci.quantity)) := by
    have h1 := congrArg (List.map (fun pr : Nat × Int => (pr.1, -pr.2))) hmap
    rw [List.map_map, List.map_map] at h1
    exact h1
  have hfst : (drafts.map (fun d => (d.productId, -d.quantity))).map Prod.fst =
      (db.cartItems.filter (fun ci => ci.userId == userId)).map (fun ci => ci.productId) := by
    rw [hds, List.map_map]
    rfl
  suffices hsuf : ∀ db2 order, create_order db userId = .ok (db2, order) →
      (db2.cartItems.filter (fun ci => ci.userId == userId) = [] ∧
      (∀ ci ∈ db.cartItems.filter (fun ci => ci.userId == userId),
        stockOf db2.products ci.productId =
          (stockOf db.products ci.productId).map (fun s => s - ci.quantity)) ∧
      db2.orders = db.orders ++ [order] ∧
      (∃ newItems, db2.orderItems = db.orderItems ++ newItems ∧
        newItems.length = (db.cartItems.filter (fun ci => ci.userId == userId)).length)) by
    have hex : ∃ pr, create_order db userId = .ok pr := by
      simp only [create_order, hempty, hcoll, Bool.false_eq_true, if_false]
      exact ⟨_, rfl⟩
    obtain ⟨⟨db2, order⟩, hco⟩ := hex
    exact ⟨db2, order, hco, hsuf db2 order hco⟩
  intro db2 order hco
  simp only [create_order, hempty, hcoll, Bool.false_eq_true, if_false] at hco
  rw [Except.ok.injEq, Prod.mk.injEq] at hco
  obtain ⟨hdb2, hord⟩ := hco
  subst hdb2
  subst hord
  refine ⟨?_, ?_, rfl, ?_⟩
  · rw [List.filter_filter]
    apply List.filter_eq_nil_iff.mpr
    intro a _
    cases hu : a.userId == userId <;> simp [bne, hu]
  · intro ci hci
    show stockOf (applyStockDeltas db.products (drafts.map (fun d => (d.productId, -d.quantity))))
        ci.productId = (stockOf db.products ci.productId).map (fun s => s - ci.quantity)
    have hmem : (ci.productId, -ci.quantity) ∈ drafts.map (fun d => (d.productId, -d.quantity)) := by
      rw [hds]
      exact List.mem_map_of_mem _ hci
    have hnd2 : ((drafts.map (fun d => (d.productId, -d.quantity))).map Prod.fst).Nodup := by
      rw [hfst]; exact hnd
    rw [stockOf_applyStockDeltas_mem _ _ _ _ hmem hnd2]
    apply congrArg (fun f => Option.map f (stockOf db.products ci.productId))
    funext s
    exact Int.sub_eq_add_neg.symm
  · refine ⟨_, rfl, ?_⟩
    have h1 := congrArg List.length hmap
    simpa using h1

/-- Witness for C1 on the two-line fixture cart. -/
theorem create_order_clears_cart_witness :
    ∃ db2 order, create_order orderFixtureDb 1 = .ok (db2, order) ∧
      db2.cartItems.filter (fun ci => ci.userId == 1) = [] := by
  obtain ⟨db2, order, h1, h2, h3, h4, h5⟩ :=
    create_order_clears_cart_and_decrements_stock orderFixtureDb 1 (by decide) (by decide)
      (by decide)
  exact ⟨db2, order, h1, h2⟩

/-- On a valid cart line the stored line subtotal is the current price of
the referenced product times the quantity. -/
theorem cartItemSubtotal_eq_priceOf (db : DB) (ci : CartItem)
    (h : cartLineOk db ci = true) :
    cartItemSubtotal db ci = priceOf db.products ci.productId * (ci.quantity : Rat) := by
  unfold cartLineOk at h
  cases hfind : db.products.find? (fun p => p.id == ci.productId) with
  | none => rw [hfind] at h; simp at h
  | some p => simp [cartItemSubtotal, priceOf, hfind]

/-- C3: on a successful create_order the persisted monetary fields satisfy
subtotal = sum of current price times quantity over the cart lines,
shipping_cost = 0 when subtotal is at least 5000 and 250 otherwise,
tax_amount = discount_amount = 0, and total_amount = subtotal +
shipping_cost. -/
theorem create_order_totals (db : DB) (userId : Nat)
    (hne : db.cartItems.filter (fun ci => ci.userId == userId) ≠ [])
    (hok : ∀ ci ∈ db.cartItems.filter (fun ci => ci.userId == userId), cartLineOk db ci = true) :
    ∃ db2 order, create_order db userId = .ok (db2, order) ∧
      order.subtotal = ((db.cartItems.filter (fun ci => ci.userId == userId)).map
        (fun ci => priceOf db.products ci.productId * (ci.quantity : Rat))).sum ∧
      order.shippingCost = (if 5000 ≤ order.subtotal then (0 : Rat) else 250) ∧
      order.taxAmount = 0 ∧
      order.discountAmount = 0 ∧
      order.totalAmount = order.subtotal + order.shippingCost := by
  obtain ⟨drafts, hcoll, hmap⟩ := collectOrderItems_ok db _ hok
  have hempty : (db.cartItems.filter (fun ci => ci.userId == userId)).isEmpty = false := by
    cases hc : db.cartItems.filter (fun ci => ci.userId == userId) with
    | nil => exact absurd hc hne
    | cons a t => rfl
  have hsum : ((db.cartItems.filter (fun ci => ci.userId == userId)).map
        (cartItemSubtotal db)).sum =
      ((db.cartItems.filter (fun ci => ci.userId == userId)).map
        (fun ci => priceOf db.products ci.productId * (ci.quantity : Rat))).sum := by
    congr 1
    exact List.map_congr_left (fun ci hci => cartItemSubtotal_eq_priceOf db ci (hok ci hci))
  suffices hsuf : ∀ db2 order, create_order db userId = .ok (db2, order) →
      (order.subtotal = ((db.cartItems.filter (fun ci => ci.userId == userId)).map
        (fun ci => priceOf db.products ci.productId * (ci.quantity : Rat))).sum ∧
      order.shippingCost = (if 5000 ≤ order.subtotal then (0 : Rat) else 250) ∧
      order.taxAmount = 0 ∧
      order.discountAmount = 0 ∧
      order.totalAmount = order.subtotal + order.shippingCost) by
    have hex : ∃ pr, create_order db userId = .ok pr := by
      simp only [create_order, hempty, hcoll, Bool.false_eq_true, if_false]
      exact ⟨_, rfl⟩
    obtain ⟨⟨db2, order⟩, hco⟩ := hex
    exact ⟨db2, order, hco, hsuf db2 order hco⟩
  intro db2 order hco
  simp only [create_order, hempty, hcoll, Bool.false_eq_true, if_false] at hco
  rw [Except.ok.injEq, Prod.mk.injEq] at hco
  obtain ⟨hdb2, hord⟩ := hco
  subst hdb2
  subst hord
  exact ⟨hsum, rfl, rfl, rfl, rfl⟩

/-- Witness for C3 on the specification's worked example: lines 3000 times 1
and 2500 times 1 give subtotal 5500 and free shipping. -/
theorem create_order_totals_witness :
    ∃ db2 order, create_order orderFixtureDb 1 = .ok (db2, order) ∧
      order.subtotal = ((orderFixtureDb.cartItems.filter (fun ci => ci.userId == 1)).map
        (fun ci => priceOf orderFixtureDb.products ci.productId * (ci.quantity : Rat))).sum ∧
      order.totalAmount = order.subtotal + order.shippingCost := by
  obtain ⟨db2, order, h1, h2, h3, h4, h5, h6⟩ :=
    create_order_totals orderFixtureDb 1 (by decide) (by decide)
  exact ⟨db2, order, h1, h2, h6⟩

/-- The product ids of the stock-restore deltas are the non-null product ids
of the order lines. -/
theorem restore_deltas_map_fst (items : List OrderItemRec) :
    (items.filterMap (fun oi => oi.productId.map (fun pid => (pid, oi.quantity)))).map
      Prod.fst = items.filterMap (fun oi => oi.productId) := by
  rw [List.map_filterMap]
  congr 1
  funext oi
  cases oi.productId <;> rfl

/-- C4: cancel_order reports NotFound when the order is missing or not owned
by the caller; errors (committing nothing) when the status is outside
{pending, confirmed}; and otherwise commits a store in which the order's
status is cancelled and the stock of every line's still-existing product is
increased by the line quantity, lines with a null or dangling product
reference being skipped. The order's lines are assumed to reference
pairwise distinct products, as lines are only created from a
unique-constrained cart. -/
theorem cancel_order_spec (db : DB) (orderId userId : Nat)
    (hnd : ((db.orderItems.filter (fun oi => oi.orderId == orderId)).filterMap
        (fun oi => oi.productId)).Nodup) :
    (db.orders.find? (fun o => o.id == orderId && o.userId == userId) = none →
      cancel_order db orderId userId = .error .notFound) ∧
    (∀ o, db.orders.find? (fun o => o.id == orderId && o.userId == userId) = some o →
      o.status ≠ .pending → o.status ≠ .confirmed →
      cancel_order db orderId userId = .error .invalid) ∧
    (∀ o, db.orders.find? (fun o => o.id == orderId && o.userId == userId) = some o →
      (o.status = .pending ∨ o.status = .confirmed) →
      ∃ db2, cancel_order db orderId userId = .ok (db2, { o with status := OrderStatus.cancelled }) ∧
        db2.orders = db.orders.map
          (fun x => if x.id == o.id then { o with status := OrderStatus.cancelled } else x) ∧
        (∀ oi ∈ db.orderItems.filter (fun oi => oi.orderId == orderId), ∀ pid,
          oi.productId = some pid →
          stockOf db2.products pid = (stockOf db.products pid).map (fun s => s + oi.quantity)) ∧
        (∀ pid, pid ∉ (db.orderItems.filter (fun oi => oi.orderId == orderId)).filterMap
            (fun oi => oi.productId) →
          stockOf db2.products pid = stockOf db.products pid)) := by
  refine ⟨?_, ?_, ?_⟩
  · intro h
    simp only [cancel_order, h]
  · intro o ho h1 h2
    simp only [cancel_order, ho]
    rw [if_pos (by simp [bne_iff_ne, h1, h2])]
  · intro o ho hst
    have hoid : o.id = orderId := by
      have hp := List.find?_some ho
      simp only [Bool.and_eq_true, beq_iff_eq] at hp
      exact hp.1
    have hcond : (o.status != OrderStatus.pending && o.status != OrderStatus.confirmed) = false := by
      rcases hst with h | h <;> simp [h]
    have hex : ∃ pr, cancel_order db orderId userId = .ok pr := by
      simp only [cancel_order, ho, hcond, Bool.false_eq_true, if_false]
      exact ⟨_, rfl⟩
    obtain ⟨⟨db2, o2⟩, hco⟩ := hex
    have hco2 := hco
    simp only [cancel_order, ho, hcond, Bool.false_eq_true, if_false] at hco2
    rw [Except.ok.injEq, Prod.mk.injEq] at hco2
    obtain ⟨hdb2, ho2⟩ := hco2
    subst hdb2
    subst ho2
    refine ⟨_, hco, rfl, ?_, ?_⟩
    · intro oi hoi pid hpid
      show stockOf (applyStockDeltas db.products
          ((db.orderItems.filter (fun x => x.orderId == o.id)).filterMap
            (fun x => x.productId.map (fun q => (q, x.quantity))))) pid = _
      rw [hoid]
      have hmem : (pid, oi.quantity) ∈
          (db.orderItems.filter (fun x => x.orderId == orderId)).filterMap
            (fun x => x.productId.map (fun q => (q, x.quantity))) := by
        apply List.mem_filterMap.mpr
        exact ⟨oi, hoi, by rw [hpid]; rfl⟩
      have hnd2 : (((db.orderItems.filter (fun x => x.orderId == orderId)).filterMap
          (fun x => x.productId.map (fun q => (q, x.quantity)))).map Prod.fst).Nodup := by
        rw [restore_deltas_map_fst]
        exact hnd
      exact stockOf_applyStockDeltas_mem _ _ _ _ hmem hnd2
    · intro pid hpid
      show stockOf (applyStockDeltas db.products
          ((db.orderItems.filter (fun x => x.orderId == o.id)).filterMap
            (fun x => x.productId.map (fun q => (q, x.quantity))))) pid = _
      rw [hoid]
      apply stockOf_applyStockDeltas_notmem
      intro d hd hdp
      apply hpid
      obtain ⟨oi, hoi, hf⟩ := List.mem_filterMap.mp hd
      cases hopt : oi.productId with
      | none => rw [hopt] at hf; simp at hf
      | some q =>
        rw [hopt] at hf
        have hf2 : (q, oi.quantity) = d := Option.some.inj hf
        have hq : q = d.1 := congrArg Prod.fst hf2
        apply List.mem_filterMap.mpr
        exact ⟨oi, hoi, by rw [hopt, hq, hdp]⟩

/-- Witness for C4: cancelling the pending fixture order succeeds with
status cancelled. -/
theorem cancel_order_spec_witness :
    ∃ db2, cancel_order cancelFixtureDb 7 1 =
      .ok (db2, { (cancelFixtureDb.orders.get ⟨0, by decide⟩) with
        status := OrderStatus.cancelled }) := by
  obtain ⟨db2, h1, h2, h3, h4⟩ :=
    (cancel_order_spec cancelFixtureDb 7 1 (by decide)).2.2
      (cancelFixtureDb.orders.get ⟨0, by decide⟩) (by decide) (by decide)
  exact ⟨db2, h1⟩

/-- The listing sort key unfolded to its ordering proposition. -/
theorem catLe_iff (a b : Category) : catLe a b = true ↔
    (a.displayOrder < b.displayOrder ∨
      (a.displayOrder = b.displayOrder ∧ a.name ≤ b.name)) := by
  simp [catLe]

/-- Transitivity of the (display_order, name) sort key. -/
theorem catLe_trans (a b c : Category) (hab : catLe a b) (hbc : catLe b c) : catLe a c := by
  rw [catLe_iff] at hab hbc ⊢
  rcases hab with h1 | ⟨h1, h1n⟩ <;> rcases hbc with h2 | ⟨h2, h2n⟩
  · exact Or.inl (lt_trans h1 h2)
  · exact Or.inl (h2 ▸ h1)
  · exact Or.inl (h1 ▸ h2)
  · exact Or.inr ⟨h1.trans h2, le_trans h1n h2n⟩

/-- Totality of the (display_order, name) sort key. -/
theorem catLe_total (a b : Category) : catLe a b || catLe b a := by
  rw [Bool.or_eq_true, catLe_iff, catLe_iff]
  rcases lt_trichotomy a.displayOrder b.displayOrder with h | h | h
  · exact Or.inl (Or.inl h)
  · rcases le_total a.name b.name with hn | hn
    · exact Or.inl (Or.inr ⟨h, hn⟩)
    · exact Or.inr (Or.inr ⟨h.symm, hn⟩)
  · exact Or.inr (Or.inl h)

/-- A built tree node carries the id of its category. -/
theorem topId_build (db : DB) (A : List Category) (fuel : Nat) (c : Category) :
    (build_category_tree_node db A fuel c).topId = c.id := by
  cases fuel <;> rfl

/-- With unique category ids, looking an active row's id up in the sorted
active list (the category_map of the tree builder) returns that row
itself. -/
theorem find?_sorted_active (db : DB)
    (hnd : (db.categories.map (fun c => c.id)).Nodup)
    (s : Category) (hmem : s ∈ db.categories) (hs : s.isActive = true) :
    ((db.categories.filter (fun c => c.isActive)).mergeSort catLe).find?
      (fun a => a.id == s.id) = some s := by
  have hmemA : s ∈ (db.categories.filter (fun c => c.isActive)).mergeSort catLe :=
    (List.mergeSort_perm _ _).mem_iff.mpr (List.mem_filter.mpr ⟨hmem, hs⟩)
  cases hfind : ((db.categories.filter (fun c => c.isActive)).mergeSort catLe).find?
      (fun a => a.id == s.id) with
  | none =>
    have := List.find?_eq_none.mp hfind s hmemA
    simp at this
  | some s2 =>
    have hmem2 : s2 ∈ (db.categories.filter (fun c => c.isActive)).mergeSort catLe :=
      List.mem_of_find?_eq_some hfind
    have hid : s2.id = s.id := by simpa using List.find?_some hfind
    have hc2 : s2 ∈ db.categories :=
      (List.mem_filter.mp ((List.mergeSort_perm _ _).mem_iff.mp hmem2)).1
    rw [List.inj_on_of_nodup_map hnd hc2 hmem hid]

/-- The ids of the children a node keeps are exactly the ids of the active
child rows, in table order. -/
theorem children_ids_of_build (db : DB) (A : List Category) (fuel : Nat) (l : List Category)
    (h : ∀ s ∈ l, s.isActive = true → A.find? (fun a => a.id == s.id) = some s) :
    (l.filterMap (fun s =>
      match A.find? (fun a => a.id == s.id) with
      | some s2 => if s.isActive then some (build_category_tree_node db A fuel s2) else none
      | none => none)).map CategoryTree.topId
    = (l.filter (fun s => s.isActive)).map (fun s => s.id) := by
  induction l with
  | nil => rfl
  | cons s t ih =>
    have ih2 := ih (fun x hx => h x (List.mem_cons_of_mem _ hx))
    cases hs : s.isActive with
    | false =>
      cases hfind : A.find? (fun a => a.id == s.id) <;>
        simp [List.filterMap_cons, List.filter_cons, hs, hfind, ih2]
    | true =>
      have hfind := h s (List.mem_cons_self _ _) hs
      simp [List.filterMap_cons, List.filter_cons, hs, hfind, ih2, topId_build]

/-- C6 (amended): get_category_tree returns one top-level node per active
category with a null parent, the top level walked in ascending
(display_order, name) order; but the children of a node are its active
child rows in relationship (table) order, not re-sorted, an inactive child
being excluded even under an active parent. -/
theorem get_category_tree_amended (db : DB)
    (hnd : (db.categories.map (fun c => c.id)).Nodup) :
    List.Perm ((get_category_tree db).map CategoryTree.topId)
      ((db.categories.filter (fun c => c.isActive && c.parentId == none)).map
        (fun c => c.id)) ∧
    List.Pairwise (fun a b => catLe a b = true)
      (((db.categories.filter (fun c => c.isActive)).mergeSort catLe).filter
        (fun c => c.parentId == none)) ∧
    (∀ c : Category, ∀ fuel : Nat,
      ((build_category_tree_node db
          ((db.categories.filter (fun c => c.isActive)).mergeSort catLe) (fuel + 1) c).subs).map
        CategoryTree.topId =
      (db.categories.filter (fun s => s.parentId == some c.id && s.isActive)).map
        (fun s => s.id)) := by
  refine ⟨?_, ?_, ?_⟩
  · have h1 : (get_category_tree db).map CategoryTree.topId =
        (((db.categories.filter (fun c => c.isActive)).mergeSort catLe).filter
          (fun c => c.parentId == none)).map (fun c => c.id) := by
      simp only [get_category_tree, List.map_map]
      exact List.map_congr_left (fun c _ => topId_build db _ _ c)
    have h2 : List.Perm
        (((db.categories.filter (fun c => c.isActive)).mergeSort catLe).filter
          (fun c => c.parentId == none))
        ((db.categories.filter (fun c => c.isActive)).filter (fun c => c.parentId == none)) :=
      (List.mergeSort_perm _ catLe).filter _
    have h3 : (db.categories.filter (fun c => c.isActive)).filter
          (fun c => c.parentId == none) =
        db.categories.filter (fun c => c.isActive && c.parentId == none) := by
      rw [List.filter_filter]
      exact List.filter_congr (fun a _ => Bool.and_comm _ _)
    rw [h1, ← h3]
    exact h2.map _
  · exact List.Pairwise.sublist (List.filter_sublist _)
      (List.sorted_mergeSort catLe_trans catLe_total _)
  · intro c fuel
    have hchildren : ∀ s ∈ childRows db.categories c, s.isActive = true →
        ((db.categories.filter (fun c => c.isActive)).mergeSort catLe).find?
          (fun a => a.id == s.id) = some s := by
      intro s hsmem hs
      exact find?_sorted_active db hnd s (List.mem_filter.mp hsmem).1 hs
    have h := children_ids_of_build db
      ((db.categories.filter (fun c => c.isActive)).mergeSort catLe) fuel
      (childRows db.categories c) hchildren
    simp only [build_category_tree_node, CategoryTree.subs]
    rw [h]
    unfold childRows
    rw [List.filter_filter]
    exact congrArg _ (List.filter_congr (fun a _ => Bool.and_comm _ _))

/-- Witness for C6 on the fixture with an active root and a single inactive
child: the root keeps zero children. -/
theorem get_category_tree_amended_witness :
    ((build_category_tree_node prunedTreeFixtureDb
        ((prunedTreeFixtureDb.categories.filter (fun c => c.isActive)).mergeSort catLe)
        (0 + 1) prunedRootCat).subs).map CategoryTree.topId =
      (prunedTreeFixtureDb.categories.filter
        (fun s => s.parentId == some prunedRootCat.id && s.isActive)).map (fun s => s.id) :=
  (get_category_tree_amended prunedTreeFixtureDb (by decide)).2.2 prunedRootCat 0

unseal List.merge List.mergeSort in
/-- C6 counterexample: with two active children stored in the order
[display_order 2, display_order 1], the built tree keeps the table order,
while the specification's sorted builder re-orders them — so the tree is
not sorted by (display_order, name) at the child level. -/
theorem get_category_tree_children_not_resorted :
    get_category_tree treeFixtureDb ≠ get_category_tree_spec treeFixtureDb :=
  fun h => absurd (congrArg rootChildIds h) (by decide)
